import Mathlib

/-!
Verification of the Consensus backend's hybrid retrieval and duplicate
detection core, shallowly embedded from the Python sources
(`api/routes/search.py`, `api/routes/upload.py`, `embeddings.py`,
`db/operations.py`).  Machine floats are modelled as rationals; Python's
`round(x, 4)` is modelled as exact half-to-even decimal rounding; the
remote embedding provider, rerank provider and the SQL store are modelled
as explicit environments whose replies are parameters, with the calls the
code issues recorded in a trace.
-/

namespace Consensus

/-- Whitespace characters recognised by Python's `str.strip()` /
`str.split()` (ASCII subset: space, tab, newline, carriage return,
vertical tab, form feed). -/
def isPySpace (c : Char) : Bool :=
  c == ' ' || c == '\t' || c == '\n' || c == '\r' ||
  c == Char.ofNat 11 || c == Char.ofNat 12

/-- Python `str.strip()`: drop leading and trailing whitespace. -/
def pyStrip (s : String) : String :=
  ⟨((s.data.dropWhile isPySpace).reverse.dropWhile isPySpace).reverse⟩

/-- True iff the string is empty or consists only of whitespace. -/
def isWhitespaceOnly (s : String) : Bool :=
  s.data.all isPySpace

/-- Helper for `pySplitWs`: walk the characters, accumulating the
current word (reversed) and emitting it at each whitespace run. -/
def splitWsAux : List Char → List Char → List String
  | [], acc => if acc = [] then [] else [⟨acc.reverse⟩]
  | c :: cs, acc =>
    if isPySpace c then
      if acc = [] then splitWsAux cs []
      else ⟨acc.reverse⟩ :: splitWsAux cs []
    else splitWsAux cs (c :: acc)

/-- Python `str.split()` with no arguments: split on whitespace runs,
dropping empty pieces. -/
def pySplitWs (s : String) : List String :=
  splitWsAux s.data []

/-- Python's banker's rounding (`round`) to an integer: round half to
even. -/
def roundHalfEven (x : ℚ) : ℤ :=
  let n : ℤ := ⌊x⌋
  let frac : ℚ := x - (n : ℚ)
  if frac < 1/2 then n
  else if 1/2 < frac then n + 1
  else if n % 2 = 0 then n else n + 1

/-- Python `round(x, 4)` on the exact value: half-to-even rounding at four
decimal places. -/
def pyRound4 (x : ℚ) : ℚ :=
  (roundHalfEven (x * 10000) : ℚ) / 10000

/-- A row returned by the store's nearest-neighbor query
(`_semantic_candidates` in `search.py`): a listing id plus the computed
cosine distance column (NULL modelled as `none`). -/
structure Row where
  id : Nat
  distance : Option ℚ
deriving DecidableEq, Repr

/-- A transient search candidate as built by `search.py`: the row fields
plus the derived `similarity_score` and, after a successful rerank, the
attached `rerank_score`. -/
structure Candidate where
  id : Nat
  distance : Option ℚ
  similarity_score : ℚ
  rerank_score : Option ℚ
deriving DecidableEq, Repr

/-- Python `row.get("distance", 1.0) or 1.0` (search.py lines 113 and
273): a missing/NULL distance falls back to 1.0, and — because `0.0` is
falsy in Python — an exact-match distance of `0.0` is also replaced by
`1.0`. -/
def orOne (d : Option ℚ) : ℚ :=
  match d with
  | none => 1
  | some x => if x = 0 then 1 else x

/-- `_semantic_candidates` annotation (search.py lines 112–114):
`similarity_score = round(1.0 - distance, 4)` with the falsy-coerced
distance. The stored `distance` field itself is left as returned. -/
def annotate (r : Row) : Candidate :=
  { id := r.id, distance := r.distance,
    similarity_score := pyRound4 (1 - orOne r.distance),
    rerank_score := none }

/-- The threshold filter (search.py line 273):
`[r for r in results if (r.get("distance", 1.0) or 1.0) <= threshold]`. -/
def thresholdFilter (threshold : ℚ) (results : List Candidate) : List Candidate :=
  results.filter (fun r => orOne r.distance ≤ threshold)

/-- `_VECTOR_FETCH_MULTIPLIER = max(1, int(env "2"))` at its default. -/
def VECTOR_FETCH_MULTIPLIER : ℕ := max 1 2

/-- `_VECTOR_FETCH_MIN = max(10, int(env "30"))` at its default. -/
def VECTOR_FETCH_MIN : ℕ := max 10 30

/-- `_VECTOR_FETCH_MAX = max(20, int(env "120"))` at its default. -/
def VECTOR_FETCH_MAX : ℕ := max 20 120

/-- `_RERANK_HARD_MAX = max(1, int(env "40"))` at its default. -/
def RERANK_HARD_MAX : ℕ := max 1 40

/-- search.py lines 258–261:
`fetch_limit = min(FETCH_MAX, max(limit * MULTIPLIER, FETCH_MIN, limit))`. -/
def fetchLimit (limit : ℕ) : ℕ :=
  min VECTOR_FETCH_MAX
    (max (limit * VECTOR_FETCH_MULTIPLIER) (max VECTOR_FETCH_MIN limit))

/-- search.py line 284: the blended score
`round((similarity_score * 0.4) + (score * 0.6), 4)` stored back into the
candidate's `similarity_score`. -/
def blendScore (s r : ℚ) : ℚ :=
  pyRound4 (s * (4/10) + r * (6/10))

/-- The sort key of search.py line 285: the candidate's raw
`rerank_score` (always present inside the rerank window). -/
def rkey (c : Candidate) : ℚ :=
  c.rerank_score.getD 0

/-- Stable insertion into a list kept in descending `rkey` order: a new
element goes before the first strictly-smaller-or-equal key, i.e. before
later-ranked elements but after earlier elements with an equal key — the
placement Python's stable `list.sort(reverse=True)` gives. -/
def insertDesc (c : Candidate) : List Candidate → List Candidate
  | [] => [c]
  | y :: ys => if rkey y ≤ rkey c then c :: y :: ys else y :: insertDesc c ys

/-- Stable descending sort by `rkey`, extensionally equal to Python's
stable `rerank_slice.sort(key=lambda x: x["rerank_score"], reverse=True)`
(any two stable sorts under a total preorder agree). -/
def sortDesc : List Candidate → List Candidate
  | [] => []
  | x :: xs => insertDesc x (sortDesc xs)

/-- Outcome of the remote call `rerank_documents(q, descriptions)`:
either the call raised an exception, or it returned a score list (the
code coerces a falsy reply to `[]`, so `scores []` also covers `None`). -/
inductive RerankOutcome where
  | failure : RerankOutcome
  | scores : List ℚ → RerankOutcome
deriving DecidableEq, Repr

/-- The attachment of one rerank score to one windowed candidate
(search.py lines 282–284): record the raw score and overwrite
`similarity_score` with the blended value. -/
def attachScore (c : Candidate) (s : ℚ) : Candidate :=
  { c with rerank_score := some s, similarity_score := blendScore c.similarity_score s }

/-- The rerank step of `semantic_search` (search.py lines 275–296),
applied to the threshold-filtered candidate list.  On a non-empty,
length-matching score list the window is scored and stable-sorted
descending by the raw `rerank_score`; on an exception, an empty/falsy
reply, or a length mismatch the list is returned untouched. -/
def rerankStep (rerankFlag : Bool) (limit topk : ℕ) (outcome : RerankOutcome)
    (results : List Candidate) : List Candidate :=
  if rerankFlag && !results.isEmpty then
    let n := min results.length (min RERANK_HARD_MAX (max limit topk))
    let slice := results.take n
    match outcome with
    | .failure => results
    | .scores scores =>
      if !scores.isEmpty && scores.length == slice.length then
        sortDesc (List.zipWith attachScore slice scores) ++ results.drop n
      else results
  else results

/-- Outcome of the remote call `get_embedding(q)`: the call raised, or it
returned a vector (possibly empty). -/
inductive EmbedOutcome where
  | failure : EmbedOutcome
  | ok : List ℚ → EmbedOutcome
deriving DecidableEq, Repr

/-- The environment of one `semantic_search` request: the outcome of the
query-embedding call, the underlying listing streams the store would
return to `Store.text_search` / `Store.vector_search` (truncated by the
`LIMIT` the code passes), and the rerank provider's outcome. -/
structure SearchEnv where
  embed : EmbedOutcome
  textRows : List Candidate
  vectorRows : List Row
  rerank : RerankOutcome

/-- The observable result of one `semantic_search` request: the response
fields (`method`, `total`, `data`) plus a trace of the store and rerank
calls the handler issued — `textCall`/`vectorCall` record the `LIMIT`
passed to `Store.text_search` / the nearest-neighbor query when issued. -/
structure SearchOut where
  method : String
  total : ℕ
  data : List Candidate
  textCall : Option ℕ
  vectorCall : Option ℕ
  rerankCalled : Bool
deriving DecidableEq, Repr

/-- The `semantic_search` handler (search.py lines 139–304), from the
word-count classification on: fewer than 3 words → text search; embedding
exception → text search tagged as fallback; empty embedding → empty
response; otherwise over-fetch by `fetchLimit`, annotate, threshold
filter, rerank step, truncate to `limit`.  The structured-filter
machinery (`detect_numeric_columns`, `build_listing_filter_conditions`)
is parameter plumbing outside this core and is absorbed into the store
streams. -/
def semanticSearch (env : SearchEnv) (q : String) (limit : ℕ) (threshold : ℚ)
    (rerankFlag : Bool) (topk : ℕ) : SearchOut :=
  let words := pySplitWs (pyStrip q)
  if words.length < 3 then
    let results := env.textRows.take limit
    { method := "text", total := results.length, data := results,
      textCall := some limit, vectorCall := none, rerankCalled := false }
  else
    match env.embed with
    | .failure =>
      let results := env.textRows.take limit
      { method := "text (embedding fallback)", total := results.length,
        data := results, textCall := some limit, vectorCall := none,
        rerankCalled := false }
    | .ok vec =>
      if vec.isEmpty then
        { method := "semantic", total := 0, data := [],
          textCall := none, vectorCall := none, rerankCalled := false }
      else
        let fl := fetchLimit limit
        let rows := (env.vectorRows.take fl).map annotate
        let filtered := thresholdFilter threshold rows
        let final := (rerankStep rerankFlag limit topk env.rerank filtered).take limit
        { method := if rerankFlag then "semantic + rerank" else "semantic",
          total := final.length, data := final,
          textCall := none, vectorCall := some fl,
          rerankCalled := rerankFlag && !filtered.isEmpty }

/-- `EMBEDDING_CACHE_MAX_TEXT_LEN` at its default (embeddings.py line 51). -/
def EMBEDDING_CACHE_MAX_TEXT_LEN : ℕ := 1024

/-- Trace of one `get_embedding` call: the returned vector, the texts
sent to the remote provider, and the cache keys inserted. -/
structure EmbedTrace where
  result : List ℚ
  providerCalls : List String
  cacheInserts : List (String × String × ℕ)
deriving DecidableEq, Repr

/-- `get_embedding` (embeddings.py lines 65–88).  The text is stripped;
an empty result short-circuits to `[]` with no remote call; text longer
than the cache limit bypasses the cache; otherwise the `lru_cache` is
consulted under the key `(stripped text, model, dims)` — a hit returns
the cached vector with no remote call, a miss calls the provider and
inserts.  The cache is passed as its current entry list; LRU eviction
does not affect which calls a single invocation makes. -/
def getEmbedding (provider : String → List ℚ)
    (cache : List ((String × String × ℕ) × List ℚ))
    (model : String) (dims : ℕ) (text : String) : EmbedTrace :=
  let t := pyStrip text
  if t = "" then ⟨[], [], []⟩
  else if EMBEDDING_CACHE_MAX_TEXT_LEN < t.length then ⟨provider t, [t], []⟩
  else
    match (cache.find? (fun e => e.1 == (t, model, dims))).map (fun e => e.2) with
    | some v => ⟨v, [], []⟩
    | none => ⟨provider t, [t], [(t, model, dims)]⟩

/-- Python `str.lower()` (ASCII case folding, which covers every value
in `_FALSY`). -/
def pyLower (s : String) : String :=
  ⟨s.data.map Char.toLower⟩

/-- `_FALSY` (db/operations.py line 14): the trimmed, lowercased values
normalised to `"N/A"`. -/
def FALSY : List String :=
  ["", "0", "$0", "0.0", "0.00", "$0.00", "none", "n/a", "null"]

/-- `_normalise` (db/operations.py lines 17–24): `None` → `"N/A"`;
otherwise strip, and if the lowercased result is in `_FALSY` → `"N/A"`,
else the stripped string. -/
def normalise (value : Option String) : String :=
  match value with
  | none => "N/A"
  | some v =>
    let s := pyStrip v
    if pyLower s ∈ FALSY then "N/A" else s

/-- `_COLUMN_MAP` (db/operations.py lines 35–58): CSV/scraper keys to
raw_listings columns. -/
def COLUMN_MAP : List (String × String) :=
  [("Title", "title"), ("City", "city"), ("State", "state"),
   ("Country", "country"), ("URL", "url"), ("Industry", "industry"),
   ("Source", "source"), ("Description", "description"),
   ("Listed By (Firm)", "listed_by_firm"),
   ("Listed By (Name)", "listed_by_name"),
   ("Phone", "phone"), ("Email", "email"), ("Price", "price"),
   ("Gross Revenue", "gross_revenue"), ("Cash Flow", "cash_flow"),
   ("Inventory", "inventory"), ("EBITDA", "ebitda"),
   ("Scraping Date", "scraping_date"), ("Financial Data", "financial_data"),
   ("source Link", "source_link"), ("Extra Information", "extra_information"),
   ("Deal Date", "deal_date")]

/-- The CSV-row mapping of `upload_csv` (upload.py lines 240–243): for
every `(csv_key, db_col)` of `_COLUMN_MAP`, store
`_normalise(csv_row.get(csv_key, ""))` under `db_col`.  A CSV row is a
partial map from header names to cell strings. -/
def csvRowToData (row : String → Option String) : List (String × String) :=
  COLUMN_MAP.map (fun p => (p.2, normalise (some ((row p.1).getD ""))))

/-- Trace of one tier-2 duplicate check: whether `get_embedding` was
invoked for the record's description and whether the nearest-neighbor
store query was issued. -/
structure SemTrace where
  embedCalled : Bool
  vectorIssued : Bool
deriving DecidableEq, Repr

/-- Environment for the duplicate detector: which URLs already exist in
the store, the outcome of embedding the candidate description, and the
ids the tier-2 nearest-neighbor query would return (the store's reply to
`distance < threshold ORDER BY distance LIMIT 5`). -/
structure DupEnv where
  urlExists : String → Bool
  embed : EmbedOutcome
  semMatches : List ℕ

/-- `_check_semantic_duplicate` (upload.py lines 36–64): no usable
description (`""` or `"N/A"`) → no matches and no calls; embedding
exception → no matches (embedding was attempted); otherwise the tier-2
store query is issued and its rows returned. -/
def checkSemanticDuplicate (env : DupEnv) (description : String) :
    List ℕ × SemTrace :=
  if description = "" ∨ description = "N/A" then ([], ⟨false, false⟩)
  else
    match env.embed with
    | .failure => ([], ⟨true, false⟩)
    | .ok _ => (env.semMatches, ⟨true, true⟩)

/-- Response of `upload_single` (the fields the claims are about). -/
structure SingleResp where
  inserted : Bool
  duplicateUrl : Bool
  similar : List ℕ
deriving DecidableEq, Repr

/-- `upload_single` (upload.py lines 159–212), with the (post-generation,
non-empty) URL and description of the deal: the tier-1 exact-URL check
and the tier-2 semantic check both run unconditionally, in that order;
only then is the tier-1 verdict applied — a URL duplicate blocks
insertion but the tier-2 results are still returned.  The second return
component is the tier-2 trace. -/
def uploadSingle (env : DupEnv) (url description : String) :
    SingleResp × SemTrace :=
  let isDup := env.urlExists url
  let sem := checkSemanticDuplicate env description
  if isDup then
    ({ inserted := false, duplicateUrl := true, similar := sem.1 }, sem.2)
  else
    ({ inserted := true, duplicateUrl := false, similar := sem.1 }, sem.2)

/-- Per-row outcome of `upload_csv` (upload.py lines 238–280). -/
inductive CsvRowOutcome where
  | missingUrl : CsvRowOutcome
  | skipped : CsvRowOutcome
  | inserted : List ℕ → CsvRowOutcome
deriving DecidableEq, Repr

/-- One row of the `upload_csv` loop (upload.py lines 238–280), applied
to the normalised url and description: missing URL → error row; tier-1
URL duplicate → skipped with `continue`, before any tier-2 work;
otherwise the tier-2 semantic check runs and the row is inserted.  The
second return component is the tier-2 trace. -/
def uploadCsvRow (env : DupEnv) (url description : String) :
    CsvRowOutcome × SemTrace :=
  if url = "" ∨ url = "N/A" then (.missingUrl, ⟨false, false⟩)
  else if env.urlExists url then (.skipped, ⟨false, false⟩)
  else
    let sem := checkSemanticDuplicate env description
    (.inserted sem.1, sem.2)

/-- The rerank window size (search.py line 276):
`min(len(results), min(RERANK_HARD_MAX, max(limit, rerank_top_k)))`. -/
def windowLen (limit topk : ℕ) (results : List Candidate) : ℕ :=
  min results.length (min RERANK_HARD_MAX (max limit topk))

/-- The candidate list entering the rerank step on the vector path:
over-fetched rows, annotated, threshold-filtered (search.py lines
262–273). -/
def filteredCandidates (env : SearchEnv) (limit : ℕ) (threshold : ℚ) :
    List Candidate :=
  thresholdFilter threshold ((env.vectorRows.take (fetchLimit limit)).map annotate)

theorem insertDesc_perm (c : Candidate) (l : List Candidate) :
    (insertDesc c l).Perm (c :: l) := by
  induction l with
  | nil => simp [insertDesc]
  | cons y ys ih =>
    unfold insertDesc
    by_cases h : rkey y ≤ rkey c
    · simp [h]
    · simp only [h, if_false]
      exact (ih.cons y).trans (List.Perm.swap c y ys)

theorem sortDesc_perm (l : List Candidate) : (sortDesc l).Perm l := by
  induction l with
  | nil => simp [sortDesc]
  | cons x xs ih =>
    exact (insertDesc_perm x (sortDesc xs)).trans (ih.cons x)

theorem insertDesc_pairwise (c : Candidate) (l : List Candidate)
    (h : l.Pairwise (fun a b => rkey b ≤ rkey a)) :
    (insertDesc c l).Pairwise (fun a b => rkey b ≤ rkey a) := by
  induction l with
  | nil => simp [insertDesc]
  | cons y ys ih =>
    rcases List.pairwise_cons.mp h with ⟨hy, hys⟩
    unfold insertDesc
    by_cases hc : rkey y ≤ rkey c
    · rw [if_pos hc]
      refine List.pairwise_cons.mpr ⟨?_, h⟩
      intro x hx
      rcases List.mem_cons.mp hx with rfl | hx2
      · exact hc
      · exact le_trans (hy x hx2) hc
    · rw [if_neg hc]
      refine List.pairwise_cons.mpr ⟨?_, ih hys⟩
      intro x hx
      have hmem : x ∈ c :: ys := (insertDesc_perm c ys).mem_iff.mp hx
      rcases List.mem_cons.mp hmem with rfl | hx1
      · exact le_of_lt (lt_of_not_le hc)
      · exact hy x hx1

theorem sortDesc_pairwise (l : List Candidate) :
    (sortDesc l).Pairwise (fun a b => rkey b ≤ rkey a) := by
  induction l with
  | nil => simp [sortDesc]
  | cons x xs ih => exact insertDesc_pairwise x (sortDesc xs) ih

theorem pyStrip_of_whitespaceOnly (s : String)
    (h : isWhitespaceOnly s = true) : pyStrip s = "" := by
  unfold isWhitespaceOnly at h
  unfold pyStrip
  have h1 : s.data.dropWhile isPySpace = [] := by
    rw [List.dropWhile_eq_nil_iff]
    intro x hx
    exact List.all_eq_true.mp h x hx
  rw [h1]
  rfl

theorem take_windowLen_length (limit topk : ℕ) (results : List Candidate) :
    (results.take (windowLen limit topk results)).length
      = windowLen limit topk results := by
  simp [windowLen]

theorem rerankStep_failure (rf : Bool) (limit topk : ℕ)
    (results : List Candidate) :
    rerankStep rf limit topk .failure results = results := by
  unfold rerankStep
  split
  · rfl
  · rfl

theorem rerankStep_mismatch (limit topk : ℕ) (results : List Candidate)
    (scores : List ℚ) (h : scores.length ≠ windowLen limit topk results) :
    rerankStep true limit topk (.scores scores) results = results := by
  have hmm : min (min results.length (min RERANK_HARD_MAX (max limit topk)))
      results.length = min results.length (min RERANK_HARD_MAX (max limit topk)) :=
    Nat.min_eq_left (Nat.min_le_left _ _)
  have hlen2 : (scores.length
      == (results.take (min results.length (min RERANK_HARD_MAX (max limit topk)))).length)
      = false := by
    rw [List.length_take, hmm, beq_eq_false_iff_ne]
    simpa [windowLen] using h
  unfold rerankStep
  split
  · simp only [hlen2]
    simp
  · rfl

theorem rerankStep_success (limit topk : ℕ) (results : List Candidate)
    (scores : List ℚ) (hr : results ≠ []) (hs : scores ≠ [])
    (hlen : scores.length = windowLen limit topk results) :
    rerankStep true limit topk (.scores scores) results
      = sortDesc (List.zipWith attachScore
            (results.take (windowLen limit topk results)) scores)
          ++ results.drop (windowLen limit topk results) := by
  have h1 : results.isEmpty = false := by
    cases results with
    | nil => exact absurd rfl hr
    | cons a as => rfl
  have h2 : scores.isEmpty = false := by
    cases scores with
    | nil => exact absurd rfl hs
    | cons a as => rfl
  have h3 : (scores.length
      == (results.take (min results.length (min RERANK_HARD_MAX (max limit topk)))).length)
      = true := by
    rw [beq_iff_eq, List.length_take,
      Nat.min_eq_left (Nat.min_le_left _ _)]
    simpa [windowLen] using hlen
  unfold rerankStep
  rw [h1]
  simp only [Bool.not_false, Bool.and_true, if_true, h2, h3]
  rfl

/-- C7: with the default configuration (fetch multiplier 2, fetch min 30,
fetch max 120), `fetch_limit = min(fetch_max, max(limit * multiplier,
fetch_min, limit))` is monotonically non-decreasing in the caller's
`limit` and always lies within `[30, 120]`. -/
theorem fetchLimit_monotone_bounded :
    VECTOR_FETCH_MULTIPLIER = 2 ∧ VECTOR_FETCH_MIN = 30 ∧ VECTOR_FETCH_MAX = 120
    ∧ (∀ l1 l2 : ℕ, l1 ≤ l2 → fetchLimit l1 ≤ fetchLimit l2)
    ∧ (∀ l : ℕ, 30 ≤ fetchLimit l ∧ fetchLimit l ≤ 120) := by
  refine ⟨rfl, rfl, rfl, ?_, ?_⟩
  · intro l1 l2 h
    show min 120 (max (l1 * 2) (max 30 l1)) ≤ min 120 (max (l2 * 2) (max 30 l2))
    omega
  · intro l
    show 30 ≤ min 120 (max (l * 2) (max 30 l)) ∧ min 120 (max (l * 2) (max 30 l)) ≤ 120
    omega

/-- Witness for C7 at concrete limits. -/
theorem fetchLimit_monotone_bounded_witness :
    fetchLimit 1 ≤ fetchLimit 50 ∧ 30 ≤ fetchLimit 1 ∧ fetchLimit 100 ≤ 120 :=
  ⟨fetchLimit_monotone_bounded.2.2.2.1 1 50 (by norm_num),
   (fetchLimit_monotone_bounded.2.2.2.2 1).1,
   (fetchLimit_monotone_bounded.2.2.2.2 100).2⟩

/-- C5: for similarity `s` and rerank score `r` in `[0,1]`, the blended
score the rerank step attaches to a candidate equals
`round(0.4*s + 0.6*r, 4)` exactly — the deterministic function
`blendScore` of those two inputs. -/
theorem attachScore_blend_spec (c : Candidate) (r : ℚ)
    (hs0 : 0 ≤ c.similarity_score) (hs1 : c.similarity_score ≤ 1)
    (hr0 : 0 ≤ r) (hr1 : r ≤ 1) :
    (attachScore c r).similarity_score
      = pyRound4 ((4/10) * c.similarity_score + (6/10) * r)
    ∧ (attachScore c r).similarity_score = blendScore c.similarity_score r := by
  constructor
  · show blendScore c.similarity_score r = _
    unfold blendScore
    congr 1
    ring
  · rfl

/-- Witness for C5 at `s = 9/10`, `r = 1/2`. -/
theorem attachScore_blend_spec_witness :
    (attachScore ⟨1, some (1/10), 9/10, none⟩ (1/2)).similarity_score
      = pyRound4 ((4/10) * (9/10) + (6/10) * (1/2)) :=
  (attachScore_blend_spec ⟨1, some (1/10), 9/10, none⟩ (1/2)
    (by norm_num) (by norm_num) (by norm_num) (by norm_num)).1

/-- C6 (code bug): a candidate with distance exactly `0.0` — an exact
match, which satisfies `distance <= threshold` for the default threshold
`0.6` — is nevertheless dropped by the threshold filter, because
`r.get("distance", 1.0) or 1.0` coerces the falsy float `0.0` to `1.0`. -/
theorem thresholdFilter_excludes_zero_distance :
    thresholdFilter (6/10) [⟨1, some 0, 0, none⟩] = []
    ∧ (0 : ℚ) ≤ 6/10 := by
  constructor
  · norm_num [thresholdFilter, orOne, List.filter]
  · norm_num

/-- C10: `_normalise` sends `None`, blank and the zero-like strings
(`"0"`, `"$0"`, `"0.0"`, `"0.00"`, `"$0.00"`, `"none"`, `"n/a"`,
`"null"`, case-insensitive after trimming) to `"N/A"`; every value stored
by the bulk-CSV mapping passes through `_normalise`; and a genuinely zero
figure is indistinguishable from an absent one. -/
theorem normalise_falsy_to_NA :
    normalise none = "N/A"
    ∧ (∀ s : String, pyLower (pyStrip s) ∈ FALSY → normalise (some s) = "N/A")
    ∧ (∀ row : String → Option String, ∀ e ∈ csvRowToData row,
        ∃ p, p ∈ COLUMN_MAP ∧ e = (p.2, normalise (some ((row p.1).getD ""))))
    ∧ normalise (some "0") = normalise none
    ∧ normalise (some " $0.00 ") = normalise none
    ∧ normalise (some "NULL") = normalise none := by
  refine ⟨rfl, ?_, ?_, ?_, ?_, ?_⟩
  · intro s h
    simp [normalise, h]
  · intro row e he
    rcases List.mem_map.mp he with ⟨p, hp, hfp⟩
    exact ⟨p, hp, hfp.symm⟩
  · decide
  · decide
  · decide

/-- Witness for C10 at the zero-like input `"  n/a "`. -/
theorem normalise_falsy_to_NA_witness :
    normalise (some "  n/a ") = "N/A" :=
  normalise_falsy_to_NA.2.1 "  n/a " (by decide)

theorem getEmbedding_providerCalls_cases (provider : String → List ℚ)
    (cache : List ((String × String × ℕ) × List ℚ)) (model : String)
    (dims : ℕ) (text : String) :
    (getEmbedding provider cache model dims text).providerCalls = []
    ∨ (getEmbedding provider cache model dims text).providerCalls
        = [pyStrip text] := by
  simp only [getEmbedding]
  split
  · exact Or.inl rfl
  · split
    · exact Or.inr rfl
    · split
      · exact Or.inl rfl
      · exact Or.inr rfl

theorem getEmbedding_cacheInserts_cases (provider : String → List ℚ)
    (cache : List ((String × String × ℕ) × List ℚ)) (model : String)
    (dims : ℕ) (text : String) :
    (getEmbedding provider cache model dims text).cacheInserts = []
    ∨ (getEmbedding provider cache model dims text).cacheInserts
        = [(pyStrip text, model, dims)] := by
  simp only [getEmbedding]
  split
  · exact Or.inl rfl
  · split
    · exact Or.inl rfl
    · split
      · exact Or.inl rfl
      · exact Or.inr rfl

/-- C9: an empty or whitespace-only input short-circuits `get_embedding`
to the empty vector with no remote provider call and no cache insertion;
for every other input, any text sent to the provider and any cache key
inserted uses the whitespace-stripped text. -/
theorem getEmbedding_strips_and_shortcircuits (provider : String → List ℚ)
    (cache : List ((String × String × ℕ) × List ℚ)) (model : String)
    (dims : ℕ) (text : String) :
    (isWhitespaceOnly text = true →
      getEmbedding provider cache model dims text = ⟨[], [], []⟩)
    ∧ (∀ s ∈ (getEmbedding provider cache model dims text).providerCalls,
        s = pyStrip text)
    ∧ (∀ k ∈ (getEmbedding provider cache model dims text).cacheInserts,
        k.1 = pyStrip text) := by
  refine ⟨?_, ?_, ?_⟩
  · intro h
    have h0 := pyStrip_of_whitespaceOnly text h
    simp [getEmbedding, h0]
  · intro s hs
    rcases getEmbedding_providerCalls_cases provider cache model dims text with
      h | h
    · rw [h] at hs
      exact absurd hs (List.not_mem_nil s)
    · rw [h] at hs
      simpa using hs
  · intro k hk
    rcases getEmbedding_cacheInserts_cases provider cache model dims text with
      h | h
    · rw [h] at hk
      exact absurd hk (List.not_mem_nil k)
    · rw [h] at hk
      simp at hk
      rw [hk]

/-- Witness for C9 at the whitespace-only input `"   "` and the padded
input `" hvac "`. -/
theorem getEmbedding_strips_witness :
    getEmbedding (fun _ => [1]) [] "m" 1024 "   " = ⟨[], [], []⟩
    ∧ (∀ s ∈ (getEmbedding (fun _ => [1]) [] "m" 1024 " hvac ").providerCalls,
        s = pyStrip " hvac ") :=
  ⟨(getEmbedding_strips_and_shortcircuits (fun _ => [1]) [] "m" 1024 "   ").1
      (by decide),
   (getEmbedding_strips_and_shortcircuits (fun _ => [1]) [] "m" 1024 " hvac ").2.1⟩

theorem semanticSearch_vector (env : SearchEnv) (q : String) (l : ℕ) (th : ℚ)
    (rf : Bool) (k : ℕ) (hw : 3 ≤ (pySplitWs (pyStrip q)).length)
    (v : List ℚ) (he : env.embed = .ok v) (hv : v ≠ []) :
    semanticSearch env q l th rf k
      = ⟨if rf then "semantic + rerank" else "semantic",
         ((rerankStep rf l k env.rerank (filteredCandidates env l th)).take l).length,
         (rerankStep rf l k env.rerank (filteredCandidates env l th)).take l,
         none, some (fetchLimit l),
         rf && !(filteredCandidates env l th).isEmpty⟩ := by
  have hw2 : ¬(pySplitWs (pyStrip q)).length < 3 := Nat.not_lt.mpr hw
  have hve : v.isEmpty = false := by
    cases v with
    | nil => exact absurd rfl hv
    | cons a as => rfl
  simp [semanticSearch, hw2, he, hve, filteredCandidates]

/-- C8: when the embedding provider returns a zero-length vector for a
vector-path query, the handler returns an empty result set directly
(`total` 0, empty `data`, method `"semantic"`), with no text-search
fallback, no store query (neither `Store.text_search` nor the
nearest-neighbor query) and no rerank call. -/
theorem emptyEmbedding_returns_empty (env : SearchEnv) (q : String) (limit : ℕ)
    (threshold : ℚ) (rf : Bool) (topk : ℕ)
    (hw : 3 ≤ (pySplitWs (pyStrip q)).length) (he : env.embed = .ok []) :
    semanticSearch env q limit threshold rf topk
      = ⟨"semantic", 0, [], none, none, false⟩ := by
  have hw2 : ¬(pySplitWs (pyStrip q)).length < 3 := Nat.not_lt.mpr hw
  simp [semanticSearch, hw2, he]

/-- Witness for C8 on a three-word query with an empty embedding. -/
theorem emptyEmbedding_returns_empty_witness :
    semanticSearch ⟨.ok [], [⟨9, none, 0, none⟩], [⟨1, some (1/10)⟩], .failure⟩
        "hvac repair business" 20 (6/10) true 20
      = ⟨"semantic", 0, [], none, none, false⟩ :=
  emptyEmbedding_returns_empty
    ⟨.ok [], [⟨9, none, 0, none⟩], [⟨1, some (1/10)⟩], .failure⟩
    "hvac repair business" 20 (6/10) true 20 (by decide) rfl

/-- C3 amended: the method tag distinguishes the native text path
(`"text"`), the degraded-to-text path (`"text (embedding fallback)"`)
and the vector path — but on the vector path it reflects only the
requested rerank flag (`"semantic + rerank"` iff `rerank=true`), not
whether reranking actually ran, and the empty-embedding outcome shares
the tag `"semantic"` with the vector-without-rerank outcome. -/
theorem method_tag_by_path (env : SearchEnv) (q : String) (limit : ℕ)
    (threshold : ℚ) (rf : Bool) (topk : ℕ) :
    ((pySplitWs (pyStrip q)).length < 3 →
      (semanticSearch env q limit threshold rf topk).method = "text")
    ∧ (3 ≤ (pySplitWs (pyStrip q)).length → env.embed = .failure →
      (semanticSearch env q limit threshold rf topk).method
        = "text (embedding fallback)")
    ∧ (∀ v, 3 ≤ (pySplitWs (pyStrip q)).length → env.embed = .ok v → v ≠ [] →
      (semanticSearch env q limit threshold rf topk).method
        = if rf then "semantic + rerank" else "semantic")
    ∧ (3 ≤ (pySplitWs (pyStrip q)).length → env.embed = .ok [] →
      (semanticSearch env q limit threshold rf topk).method = "semantic") := by
  refine ⟨?_, ?_, ?_, ?_⟩
  · intro h
    simp [semanticSearch, h]
  · intro h he
    have h2 : ¬(pySplitWs (pyStrip q)).length < 3 := Nat.not_lt.mpr h
    simp [semanticSearch, h2, he]
  · intro v h he hv
    rw [semanticSearch_vector env q limit threshold rf topk h v he hv]
  · intro h he
    rw [emptyEmbedding_returns_empty env q limit threshold rf topk h he]

/-- Witness for C3's amended characterisation on a one-word query and on
a vector-path query. -/
theorem method_tag_by_path_witness :
    (semanticSearch ⟨.failure, [], [], .failure⟩ "hvac" 20 (6/10) true 20).method
      = "text"
    ∧ (semanticSearch ⟨.ok [1], [], [], .failure⟩
        "hvac repair business" 20 (6/10) false 20).method = "semantic" :=
  ⟨(method_tag_by_path ⟨.failure, [], [], .failure⟩ "hvac" 20 (6/10) true 20).1
      (by decide),
   (method_tag_by_path ⟨.ok [1], [], [], .failure⟩
      "hvac repair business" 20 (6/10) false 20).2.2.1 [1] (by decide) rfl
      (List.cons_ne_nil 1 [])⟩

/-- C4: a failed rerank attempt — provider exception, or a non-error
score list whose length differs from the window — leaves the candidate
list exactly as received; the request still succeeds with the normal
response shape, and the final data is the pre-rerank (threshold-filtered
vector) order truncated to the caller's limit. -/
theorem rerank_bestEffort :
    (∀ (rf : Bool) (l k : ℕ) (rs : List Candidate),
      rerankStep rf l k .failure rs = rs)
    ∧ (∀ (l k : ℕ) (rs : List Candidate) (ss : List ℚ),
      ss.length ≠ windowLen l k rs →
      rerankStep true l k (.scores ss) rs = rs)
    ∧ (∀ (env : SearchEnv) (q : String) (l : ℕ) (th : ℚ) (k : ℕ),
      3 ≤ (pySplitWs (pyStrip q)).length →
      ∀ v, env.embed = .ok v → v ≠ [] →
      (env.rerank = .failure ∨
        ∃ ss, env.rerank = .scores ss
          ∧ ss.length ≠ windowLen l k (filteredCandidates env l th)) →
      (semanticSearch env q l th true k).data
          = (filteredCandidates env l th).take l
        ∧ (semanticSearch env q l th true k).method = "semantic + rerank") := by
  refine ⟨rerankStep_failure, rerankStep_mismatch, ?_⟩
  intro env q l th k hw v he hv hfail
  rw [semanticSearch_vector env q l th true k hw v he hv]
  have hstep : rerankStep true l k env.rerank (filteredCandidates env l th)
      = filteredCandidates env l th := by
    rcases hfail with hf | ⟨ss, hss, hlen⟩
    · rw [hf]
      exact rerankStep_failure true l k _
    · rw [hss]
      exact rerankStep_mismatch l k _ ss hlen
  rw [hstep]
  exact ⟨rfl, rfl⟩

/-- Witness for C4: a provider exception on a concrete vector-path
request leaves the filtered candidates in order. -/
theorem rerank_bestEffort_witness :
    (semanticSearch ⟨.ok [1], [], [⟨1, some (1/10)⟩, ⟨2, some (2/10)⟩], .failure⟩
        "hvac repair business" 20 (6/10) true 20).data
      = (filteredCandidates
          ⟨.ok [1], [], [⟨1, some (1/10)⟩, ⟨2, some (2/10)⟩], .failure⟩
          20 (6/10)).take 20 :=
  (rerank_bestEffort.2.2
    ⟨.ok [1], [], [⟨1, some (1/10)⟩, ⟨2, some (2/10)⟩], .failure⟩
    "hvac repair business" 20 (6/10) 20 (by decide) [1] rfl
    (List.cons_ne_nil 1 []) (Or.inl rfl)).1

/-- C1 counterexample: with window candidates of similarity `0.9` and
`0.1` and rerank scores `0.5` and `0.6`, the code emits the second
candidate (blended `0.4`) before the first (blended `0.66`): the window
is NOT sorted descending by the blended score — line 285 sorts by the raw
`rerank_score`. -/
theorem rerank_sort_key_counterexample :
    rerankStep true 20 20 (.scores [1/2, 3/5])
        [⟨1, some (1/10), 9/10, none⟩, ⟨2, some (9/10), 1/10, none⟩]
      = [⟨2, some (9/10), 2/5, some (3/5)⟩, ⟨1, some (1/10), 33/50, some (1/2)⟩]
    ∧ (2/5 : ℚ) < 33/50 := by
  constructor
  · norm_num [rerankStep, RERANK_HARD_MAX, sortDesc, insertDesc, attachScore,
      blendScore, pyRound4, roundHalfEven, rkey]
  · norm_num

/-- C1 amended: on a successful rerank with a matching score count, each
windowed candidate is assigned the blended score
`round(similarity*0.4 + score*0.6, 4)` (via `attachScore`) and the
windowed subset is stable-sorted descending by the raw `rerank_score`
(not by the blended score), then concatenated with the unchanged tail. -/
theorem rerank_window_sorted_by_raw_score (limit topk : ℕ)
    (results : List Candidate) (scores : List ℚ)
    (hr : results ≠ []) (hs : scores ≠ [])
    (hlen : scores.length = windowLen limit topk results) :
    rerankStep true limit topk (.scores scores) results
      = sortDesc (List.zipWith attachScore
          (results.take (windowLen limit topk results)) scores)
        ++ results.drop (windowLen limit topk results)
    ∧ (sortDesc (List.zipWith attachScore
          (results.take (windowLen limit topk results)) scores)).Perm
        (List.zipWith attachScore
          (results.take (windowLen limit topk results)) scores)
    ∧ (sortDesc (List.zipWith attachScore
          (results.take (windowLen limit topk results)) scores)).Pairwise
        (fun a b => rkey b ≤ rkey a) :=
  ⟨rerankStep_success limit topk results scores hr hs hlen,
   sortDesc_perm _, sortDesc_pairwise _⟩

/-- Witness for C1's amended statement on a one-candidate window. -/
theorem rerank_window_sorted_witness :
    (sortDesc (List.zipWith attachScore
        (([⟨1, some (1/10), 9/10, none⟩] : List Candidate).take
          (windowLen 20 20 [⟨1, some (1/10), 9/10, none⟩])) [1/2])).Pairwise
      (fun a b => rkey b ≤ rkey a) :=
  (rerank_window_sorted_by_raw_score 20 20 [⟨1, some (1/10), 9/10, none⟩] [1/2]
    (List.cons_ne_nil _ []) (List.cons_ne_nil _ []) rfl).2.2

/-- Environment of a vector-path request whose rerank provider returns a
matching score list (rerank succeeds and reorders). -/
def envRerankOk : SearchEnv :=
  ⟨.ok [1], [], [⟨1, some (1/10)⟩, ⟨2, some (2/10)⟩], .scores [1/10, 9/10]⟩

/-- Environment identical to `envRerankOk` except the rerank provider
returns one score for a window of two (shape mismatch: rerank skipped). -/
def envRerankSkip : SearchEnv :=
  ⟨.ok [1], [], [⟨1, some (1/10)⟩, ⟨2, some (2/10)⟩], .scores [1/10]⟩

/-- C3 counterexample: a run whose rerank succeeded and a run whose
rerank was skipped for a score-count mismatch produce genuinely different
results (orders `[2,1]` vs `[1,2]`) yet carry the identical method tag —
the tag reflects the rerank request flag, not the path actually taken. -/
theorem method_tag_counterexample :
    (semanticSearch envRerankOk "hvac repair business" 20 (6/10) true 20).method
      = (semanticSearch envRerankSkip "hvac repair business" 20 (6/10) true 20).method
    ∧ (semanticSearch envRerankOk "hvac repair business" 20 (6/10) true 20).data.map
        Candidate.id = [2, 1]
    ∧ (semanticSearch envRerankSkip "hvac repair business" 20 (6/10) true 20).data.map
        Candidate.id = [1, 2] := by
  have hw : ¬(pySplitWs (pyStrip "hvac repair business")).length < 3 := by decide
  refine ⟨?_, ?_, ?_⟩
  · norm_num [semanticSearch, envRerankOk, envRerankSkip, hw]
  · norm_num [semanticSearch, envRerankOk, hw, fetchLimit, VECTOR_FETCH_MAX,
      VECTOR_FETCH_MULTIPLIER, VECTOR_FETCH_MIN, annotate, thresholdFilter,
      orOne, rerankStep, RERANK_HARD_MAX, sortDesc, insertDesc, attachScore,
      blendScore, pyRound4, roundHalfEven, rkey]
  · norm_num [semanticSearch, envRerankSkip, hw, fetchLimit, VECTOR_FETCH_MAX,
      VECTOR_FETCH_MULTIPLIER, VECTOR_FETCH_MIN, annotate, thresholdFilter,
      orOne, rerankStep, RERANK_HARD_MAX, sortDesc, insertDesc, attachScore,
      blendScore, pyRound4, roundHalfEven, rkey]

/-- C2 counterexample: in single-record ingestion, a record whose URL is
an exact duplicate is reported as a duplicate, yet the tier-2 semantic
check was still invoked — its embedding call and nearest-neighbor query
both ran, and its matches are returned. -/
theorem tier2_runs_on_url_duplicate_single :
    (uploadSingle ⟨fun u => u == "https://ex.com/1", .ok [1], [7]⟩
        "https://ex.com/1" "an established cafe").1
      = ⟨false, true, [7]⟩
    ∧ (uploadSingle ⟨fun u => u == "https://ex.com/1", .ok [1], [7]⟩
        "https://ex.com/1" "an established cafe").2
      = ⟨true, true⟩ := by
  constructor
  · decide
  · decide

/-- C2 amended: the tier-1 short-circuit holds in bulk CSV ingestion —
an exact-URL duplicate row is skipped with no tier-2 embedding call and
no tier-2 store query.  In single-record ingestion an exact-URL duplicate
still blocks insertion and is reported, but the tier-2 semantic check
runs unconditionally first (for any usable description, the embedding
call is made before the tier-1 verdict is applied). -/
theorem tier1_shortcircuit (env : DupEnv) (url desc : String)
    (hdup : env.urlExists url = true) (h1 : ¬(url = "" ∨ url = "N/A"))
    (h2 : ¬(desc = "" ∨ desc = "N/A")) :
    uploadCsvRow env url desc = (.skipped, ⟨false, false⟩)
    ∧ (uploadSingle env url desc).1.inserted = false
    ∧ (uploadSingle env url desc).1.duplicateUrl = true
    ∧ (uploadSingle env url desc).2.embedCalled = true := by
  refine ⟨?_, ?_, ?_, ?_⟩
  · simp [uploadCsvRow, h1, hdup]
  · simp [uploadSingle, hdup]
  · simp [uploadSingle, hdup]
  · simp only [uploadSingle, checkSemanticDuplicate, hdup, if_pos, if_neg h2]
    cases env.embed with
    | failure => rfl
    | ok v => rfl

/-- Witness for C2's amended statement on a concrete duplicate URL. -/
theorem tier1_shortcircuit_witness :
    uploadCsvRow ⟨fun u => u == "https://ex.com/2", .ok [1], [4]⟩
        "https://ex.com/2" "a plumbing firm"
      = (.skipped, ⟨false, false⟩) :=
  (tier1_shortcircuit ⟨fun u => u == "https://ex.com/2", .ok [1], [4]⟩
    "https://ex.com/2" "a plumbing firm" (by decide) (by decide) (by decide)).1

end Consensus
